import Mathlib

/-!
Verification of the correlated request/response protocol implemented by
`PromisedDataChannel` in `src/promised-datachannel.ts` of the
`enhanced-datachannel` repository.

The class wraps an `RTCDataChannel` (via the base wrapper
`BasedDataChannel`) and turns fire-and-forget sends into awaitable calls:
`send(data)` attaches a correlation id, registers a pending call with an
escalating timeout, and the peer's `_handleRequest` / `_handleResponse`
route responses back by id.

Shallow embedding conventions:
* The observable state of one channel instance is `DCState`: the
  `_closed` flag and the raw channel's `readyState` (inherited from the
  base wrapper), the `_sentRequests` map (an association list, mirroring
  a JS `Map`'s insertion order and unique keys), the timers registered
  via `setTimeout` together with their durations, the timers cancelled
  via `clearTimeout`, the envelopes handed to `this._dc.send`, and the
  promise settlements (`resolve` / `reject` calls) as a `CallEvent` list.
* Wire messages are modelled structurally as `Envelope` records (the
  parse of the JSON text that is sent); `JSON.stringify` failure is
  modelled by the `Val.serializable` predicate on payload values.
* Execution is single-threaded and event-driven (spec §5); each event
  handler, timer callback and method runs to completion, so each is a
  function `DCState → DCState`.
-/

/-- Payload values (`data: any` in the source, expected to be JSON
serializable). `bigint` stands for the JS values on which
`JSON.stringify` throws, so that the failure branches of the source's
`try { JSON.stringify(...) }` blocks are reachable in the model. -/
inductive Val where
  | null
  | bool (b : Bool)
  | num (n : Int)
  | str (s : String)
  | bigint (n : Int)
deriving DecidableEq

/-- Whether `JSON.stringify` succeeds on the value. -/
def Val.serializable : Val → Bool
  | .bigint _ => false
  | _ => true

/-- One wire message, structurally: the parse of the JSON text exchanged
on the raw channel. The source's envelopes are JS object literals with a
numeric `type` field (the spec calls it `kind`), a string `id`, and
either a `data` field or an `err` field; `Option` models field
presence. Source: `Request` / `SuccessResponse` / `ErrorResponse`
interfaces, promised-datachannel.ts lines 19-37. -/
structure Envelope where
  type : Nat
  id : String
  data : Option Val
  err : Option String
deriving DecidableEq

/-- `PAYLOAD_TYPES` (promised-datachannel.ts lines 5-9). -/
def PAYLOAD_TYPES_REQUEST : Nat := 0

def PAYLOAD_TYPES_SUCCESS_RESPONSE : Nat := 1

def PAYLOAD_TYPES_ERROR_RESPONSE : Nat := 2

/-- The REQUEST envelope built in `send` (lines 71-75). -/
def requestEnv (id : String) (data : Val) : Envelope :=
  ⟨PAYLOAD_TYPES_REQUEST, id, some data, none⟩

/-- The SUCCESS_RESPONSE envelope built in `_handleRequest` (lines 140-144). -/
def successEnv (id : String) (data : Val) : Envelope :=
  ⟨PAYLOAD_TYPES_SUCCESS_RESPONSE, id, some data, none⟩

/-- The ERROR_RESPONSE envelope built in `_handleRequest` (lines 151-157
and 161-167); `err` carries the result of `err.toString()`. -/
def errorEnv (id : String) (err : String) : Envelope :=
  ⟨PAYLOAD_TYPES_ERROR_RESPONSE, id, none, some err⟩

/-- The wire layouts of §6 of the spec: REQUEST is type 0 with a `data`
field and no `err`, SUCCESS_RESPONSE is type 1 with a `data` field and
no `err`, ERROR_RESPONSE is type 2 with a string `err` and no `data`. -/
def wfEnvelope (e : Envelope) : Bool :=
  (e.type == 0 && e.data.isSome && e.err == none) ||
  (e.type == 1 && e.data.isSome && e.err == none) ||
  (e.type == 2 && e.data == none && e.err.isSome)

/-- One settlement of a `send` promise: a call of the `resolve` or
`reject` function of the promise executor (lines 85-116). `resolved`
carries the value passed to `resolve` (`none` models `undefined`);
`rejected` carries the message of the `Error` passed to `reject`. -/
inductive CallEvent where
  | resolved (id : String) (res : Option Val)
  | rejected (id : String) (err : String)
deriving DecidableEq

/-- `Map.has` for the `_sentRequests` map, modelled as an association
list from correlation id to the entry's timer handle. -/
def mapHas (m : List (String × Nat)) (k : String) : Bool :=
  m.any (fun p => p.1 == k)

/-- The removal performed by `Map.delete`. -/
def mapRemove (m : List (String × Nat)) (k : String) : List (String × Nat) :=
  m.filter (fun p => p.1 != k)

/-- `Map.get`. -/
def mapGet (m : List (String × Nat)) (k : String) : Option Nat :=
  (m.find? (fun p => p.1 == k)).map (fun p => p.2)

/-- `Map.set`: overwrites in place if the key exists, else appends in
insertion order. -/
def mapSet (m : List (String × Nat)) (k : String) (v : Nat) : List (String × Nat) :=
  if mapHas m k then m.map (fun p => if p.1 == k then (k, v) else p)
  else m ++ [(k, v)]

/-- Observable state of one `PromisedDataChannel` instance together with
its raw channel.
* `closed`: the `_closed` flag of the base wrapper.
* `readyState`: `this._dc.readyState`.
* `pending`: the `_sentRequests` map (id to timer handle).
* `timers`: the `window.setTimeout` registrations made by `send`, as
  (handle, duration in ms) pairs.
* `cancelled`: handles passed to `window.clearTimeout`.
* `sent`: messages handed to `this._dc.send`, oldest first, as parsed
  envelopes.
* `events`: promise settlements, oldest first. -/
structure DCState where
  closed : Bool
  readyState : String
  pending : List (String × Nat)
  timers : List (Nat × Nat)
  cancelled : List Nat
  sent : List Envelope
  events : List CallEvent
deriving DecidableEq

/-- Result of one call of `send` up to and including the registration of
the pending entry: the thrown error if any, the state after the call,
and the timeout duration registered for the call if one was. -/
structure SendOutcome where
  err : Option String
  st : DCState
  timeout : Option Nat
deriving DecidableEq

namespace PromisedDataChannel

/-- Modelled from the spec: `based-datachannel.ts` is not under `src/`.
Per §1/§2 the base wrapper is a passive adapter over the raw channel;
its `close()` (invoked as `super.close()` on line 56) closes the raw
channel and marks the component closed. -/
def superClose (st : DCState) : DCState :=
  { st with closed := true, readyState := "closed" }

/-- `send(data)` (promised-datachannel.ts lines 60-117), run to the end
of its synchronous body (the `async` body has no `await` and the promise
executor runs synchronously). `id` is the generated correlation id and
`t` the timer handle returned by `window.setTimeout`. Checks `_closed`
then `readyState`, serializes the REQUEST envelope, sends it, computes
`timeout = 1000 + 500 * this._sentRequests.size` (before this call's
entry is added), registers the timer and the pending entry. -/
def send (st : DCState) (data : Val) (id : String) (t : Nat) : SendOutcome :=
  if st.closed then ⟨some "Closed!", st, none⟩
  else if st.readyState ≠ "open" then ⟨some "Not opened!", st, none⟩
  else if !data.serializable then
    ⟨some "Can not convert to JSON!", st, none⟩
  else
    let st1 := { st with sent := st.sent ++ [requestEnv id data] }
    let timeout := 1000 + 500 * st1.pending.length
    ⟨none,
     { st1 with timers := st1.timers ++ [(t, timeout)],
                pending := mapSet st1.pending id t },
     some timeout⟩

/-- The `sentRequest.resolve` closure (lines 95-100): deletes the entry
(returning without effect if it was already gone), clears the timeout
and resolves the promise with `res`. -/
def sentRequestResolve (st : DCState) (id : String) (t : Nat) (res : Option Val) : DCState :=
  if mapHas st.pending id then
    { st with pending := mapRemove st.pending id,
              cancelled := st.cancelled ++ [t],
              events := st.events ++ [CallEvent.resolved id res] }
  else st

/-- The `sentRequest.reject` closure (lines 101-106). -/
def sentRequestReject (st : DCState) (id : String) (t : Nat) (err : String) : DCState :=
  if mapHas st.pending id then
    { st with pending := mapRemove st.pending id,
              cancelled := st.cancelled ++ [t],
              events := st.events ++ [CallEvent.rejected id err] }
  else st

/-- The `sentRequest.close` closure (lines 107-112): like `reject` with
a fixed error message. -/
def sentRequestClose (st : DCState) (id : String) (t : Nat) : DCState :=
  if mapHas st.pending id then
    { st with pending := mapRemove st.pending id,
              cancelled := st.cancelled ++ [t],
              events := st.events ++ [CallEvent.rejected id "Closed!"] }
  else st

/-- The timeout callback passed to `window.setTimeout` (lines 89-93):
when the timer fires, deletes the entry (returning without effect if it
was already gone) and rejects the promise with a Timeout error. It does
not call `clearTimeout` (the timer has just fired). -/
def timerFire (st : DCState) (id : String) : DCState :=
  if mapHas st.pending id then
    { st with pending := mapRemove st.pending id,
              events := st.events ++ [CallEvent.rejected id "Timeout!"] }
  else st

/-- `close()` (lines 48-57): calls `sentRequest.close()` for every value
of `_sentRequests` in insertion order, then clears the map, then calls
`super.close()`. -/
def close (st : DCState) : DCState :=
  let st1 := st.pending.foldl (fun s p => sentRequestClose s p.1 p.2) st
  let st2 := { st1 with pending := [] }
  superClose st2

/-- Synchronous behavior of the application's registered
`on("message", (data, resolve, reject) => ...)` handler for one inbound
request, as observed by `_handleRequest` (spec §5: single-threaded,
event-driven execution). The handler either calls the success callback
with a response payload, calls the failure callback with an error (the
string is the result of `err.toString()`), throws before calling either
(the string is `err.toString()` of the thrown value), or returns without
calling either. -/
inductive HandlerAction where
  | succeed (data : Val)
  | fail (err : String)
  | throwErr (err : String)
  | noReply
deriving DecidableEq

/-- `_handleRequest(request)` (lines 131-169). `emit` invokes the
registered handler with the request payload and the two completion
callbacks. The success callback serializes a SUCCESS_RESPONSE and sends
it; if serialization fails it throws `Error("Can not convert to
JSON!")`, which propagates through the (synchronous) handler into the
outer `try`/`catch`, whose handler sends an ERROR_RESPONSE carrying
`err.toString()`. The failure callback sends an ERROR_RESPONSE carrying
`err.toString()`; a synchronous throw from the handler itself is caught
by the outer `catch` and likewise answered with an ERROR_RESPONSE. -/
def handleRequest (st : DCState) (reqId : String) (a : HandlerAction) : DCState :=
  match a with
  | .succeed d =>
      if d.serializable then
        { st with sent := st.sent ++ [successEnv reqId d] }
      else
        { st with sent := st.sent ++ [errorEnv reqId "Error: Can not convert to JSON!"] }
  | .fail e => { st with sent := st.sent ++ [errorEnv reqId e] }
  | .throwErr e => { st with sent := st.sent ++ [errorEnv reqId e] }
  | .noReply => st

/-- `_handleResponse(response)` (lines 171-184): looks up the pending
entry by id; if absent, logs a diagnostic and returns. If present,
rejects with `new Error(response.err)` when the response has an `err`
field (the `"err" in response` test), else resolves with
`response.data`. -/
def handleResponse (st : DCState) (r : Envelope) : DCState :=
  match mapGet st.pending r.id with
  | none => st
  | some t =>
      match r.err with
      | some e => sentRequestReject st r.id t e
      | none => sentRequestResolve st r.id t r.data

/-- `_handleMessage(ev)` (lines 119-128): parses the message and routes
it by its `type` discriminant; any other discriminant falls out of the
`switch` and the method returns `undefined` without effect. `a` is the
registered handler's behavior, consulted only on the REQUEST path. -/
def handleMessage (st : DCState) (m : Envelope) (a : HandlerAction) : DCState :=
  match m.type with
  | 0 => handleRequest st m.id a
  | 1 => handleResponse st m
  | 2 => handleResponse st m
  | _ => st

end PromisedDataChannel

/-- `String(Math.random()).slice(2, 6)`: the correlation id generation
in `send` (line 70). The argument is the JS decimal rendering of the
`Math.random()` result (a double in [0,1)), modelled as its character
list; `slice(2, 6)` drops the leading "0." and takes up to four
characters. -/
def genId (render : List Char) : List Char :=
  (render.drop 2).take 4

section MapLemmas

/-- A key reported absent by `Map.has` is untouched by `Map.delete`. -/
lemma mapRemove_fresh {m : List (String × Nat)} {k : String}
    (h : mapHas m k = false) : mapRemove m k = m := by
  simp only [mapHas, List.any_eq_false] at h
  refine List.filter_eq_self.mpr ?_
  intro p hp
  simpa using h p hp

/-- After `Map.delete`, the key is gone. -/
lemma mapHas_remove_self (m : List (String × Nat)) (k : String) :
    mapHas (mapRemove m k) k = false := by
  simp only [mapHas, List.any_eq_false]
  intro p hp
  have := (List.mem_filter.mp hp).2
  simpa using this

/-- `Map.get` finding a value implies `Map.has`. -/
lemma mapGet_some_has {m : List (String × Nat)} {k : String} {t : Nat}
    (h : mapGet m k = some t) : mapHas m k = true := by
  induction m with
  | nil => simp [mapGet] at h
  | cons p rest ih =>
    by_cases hp : (p.1 == k) = true
    · simp [mapHas, hp]
    · have hp' : (p.1 == k) = false := by simpa using hp
      simp only [mapGet, List.find?, hp'] at h
      simp only [mapHas, List.any_cons, hp', Bool.false_or]
      exact ih h

/-- `Map.set` of an absent key appends the binding in insertion order. -/
lemma mapSet_fresh {m : List (String × Nat)} {k : String} (v : Nat)
    (h : mapHas m k = false) : mapSet m k v = m ++ [(k, v)] := by
  simp [mapSet, h]

/-- Looking up a freshly appended binding. -/
lemma mapGet_append_fresh {m : List (String × Nat)} {k : String} (v : Nat)
    (h : mapHas m k = false) : mapGet (m ++ [(k, v)]) k = some v := by
  induction m with
  | nil => simp [mapGet]
  | cons p rest ih =>
    simp only [mapHas, List.any_cons, Bool.or_eq_false_iff] at h
    simp only [List.cons_append, mapGet, List.find?]
    rw [h.1]
    exact ih h.2

/-- `Map.has` on an appended singleton binding with the same key. -/
lemma mapHas_append_self (m : List (String × Nat)) (k : String) (v : Nat) :
    mapHas (m ++ [(k, v)]) k = true := by
  simp [mapHas, List.any_append]

/-- Deleting a freshly appended binding restores the map. -/
lemma mapRemove_append_fresh {m : List (String × Nat)} {k : String} (v : Nat)
    (h : mapHas m k = false) : mapRemove (m ++ [(k, v)]) k = m := by
  simp only [mapRemove, List.filter_append]
  rw [show (List.filter (fun p => p.1 != k) [(k, v)]) = [] by simp]
  rw [show List.filter (fun p => p.1 != k) m = m from mapRemove_fresh h]
  simp

end MapLemmas

open PromisedDataChannel

/-- C1. A successful `send` throws nothing and registers its timer with
duration `1000 + 500 × n` where `n` is the number of pending calls
before this call's entry is added; when the peer never responds the
timer fires, the call is rejected with a Timeout error, and the pending
entry is removed exactly once — the entry is gone afterwards and a
repeat of the timeout path changes nothing. -/
theorem send_timeout_registration_and_single_removal
    (st : DCState) (data : Val) (id : String) (t : Nat)
    (hclosed : st.closed = false) (hopen : st.readyState = "open")
    (hser : data.serializable = true) (hfresh : mapHas st.pending id = false) :
    (send st data id t).err = none ∧
    (send st data id t).timeout = some (1000 + 500 * st.pending.length) ∧
    (send st data id t).st.timers
      = st.timers ++ [(t, 1000 + 500 * st.pending.length)] ∧
    mapGet (send st data id t).st.pending id = some t ∧
    (timerFire (send st data id t).st id).events
      = (send st data id t).st.events ++ [CallEvent.rejected id "Timeout!"] ∧
    mapHas (timerFire (send st data id t).st id).pending id = false ∧
    timerFire (timerFire (send st data id t).st id) id
      = timerFire (send st data id t).st id := by
  have hsend : send st data id t =
      ⟨none,
       { st with sent := st.sent ++ [requestEnv id data],
                 timers := st.timers ++ [(t, 1000 + 500 * st.pending.length)],
                 pending := st.pending ++ [(id, t)] },
       some (1000 + 500 * st.pending.length)⟩ := by
    simp [send, hclosed, hopen, hser, mapSet_fresh t hfresh]
  rw [hsend]
  have hfire : timerFire
      { st with sent := st.sent ++ [requestEnv id data],
                timers := st.timers ++ [(t, 1000 + 500 * st.pending.length)],
                pending := st.pending ++ [(id, t)] } id =
      { st with sent := st.sent ++ [requestEnv id data],
                timers := st.timers ++ [(t, 1000 + 500 * st.pending.length)],
                pending := st.pending,
                events := st.events ++ [CallEvent.rejected id "Timeout!"] } := by
    simp [timerFire, mapHas_append_self, mapRemove_append_fresh t hfresh]
  rw [hfire]
  refine ⟨rfl, rfl, rfl, mapGet_append_fresh t hfresh, rfl, hfresh, ?_⟩
  simp [timerFire, hfresh]

/-- C1 witness: a concrete successful `send` on an open channel with one
pending call. -/
theorem send_timeout_registration_and_single_removal_witness :
    (send ⟨false, "open", [("7777", 3)], [(3, 1000)], [], [], []⟩
        (Val.str "hi") "1234" 9).timeout = some 1500 ∧
    mapHas (timerFire
        (send ⟨false, "open", [("7777", 3)], [(3, 1000)], [], [], []⟩
          (Val.str "hi") "1234" 9).st "1234").pending "1234" = false := by
  have h := send_timeout_registration_and_single_removal
    ⟨false, "open", [("7777", 3)], [(3, 1000)], [], [], []⟩
    (Val.str "hi") "1234" 9 rfl rfl rfl (by decide)
  exact ⟨h.2.1, h.2.2.2.2.2.1⟩

/-- C2. With an entry present for the id, each of the four resolution
paths (success response, error response, timeout firing, channel close)
removes exactly that entry from the pending table and settles the
promise exactly once; on a state where the entry is already gone, every
one of the four paths leaves the state entirely unchanged, so resolve or
reject is invoked at most once per call — the first path wins. -/
theorem pending_call_settled_exactly_once
    (st : DCState) (id : String) (t : Nat) (res : Option Val) (e : String)
    (h : mapGet st.pending id = some t) :
    ((sentRequestResolve st id t res).pending = mapRemove st.pending id ∧
     (sentRequestResolve st id t res).events
       = st.events ++ [CallEvent.resolved id res]) ∧
    ((sentRequestReject st id t e).pending = mapRemove st.pending id ∧
     (sentRequestReject st id t e).events
       = st.events ++ [CallEvent.rejected id e]) ∧
    ((timerFire st id).pending = mapRemove st.pending id ∧
     (timerFire st id).events
       = st.events ++ [CallEvent.rejected id "Timeout!"]) ∧
    ((sentRequestClose st id t).pending = mapRemove st.pending id ∧
     (sentRequestClose st id t).events
       = st.events ++ [CallEvent.rejected id "Closed!"]) ∧
    mapHas (mapRemove st.pending id) id = false ∧
    (∀ st' : DCState, mapHas st'.pending id = false →
      sentRequestResolve st' id t res = st' ∧
      sentRequestReject st' id t e = st' ∧
      timerFire st' id = st' ∧
      sentRequestClose st' id t = st') := by
  have hb := mapGet_some_has h
  have noop : ∀ st' : DCState, mapHas st'.pending id = false →
      sentRequestResolve st' id t res = st' ∧
      sentRequestReject st' id t e = st' ∧
      timerFire st' id = st' ∧
      sentRequestClose st' id t = st' := by
    intro st' h'
    refine ⟨?_, ?_, ?_, ?_⟩ <;>
      simp [sentRequestResolve, sentRequestReject, timerFire, sentRequestClose, h']
  refine ⟨⟨?_, ?_⟩, ⟨?_, ?_⟩, ⟨?_, ?_⟩, ⟨?_, ?_⟩, mapHas_remove_self _ _, noop⟩ <;>
    simp [sentRequestResolve, sentRequestReject, timerFire, sentRequestClose, hb]

/-- C2 witness: a table with two entries; resolving "a" removes exactly
that entry, and resolving again on the result changes nothing. -/
theorem pending_call_settled_exactly_once_witness :
    mapGet ([("a", 1), ("b", 2)] : List (String × Nat)) "a" = some 1 ∧
    (sentRequestResolve ⟨false, "open", [("a", 1), ("b", 2)], [], [], [], []⟩
        "a" 1 (some (Val.str "v"))).pending
      = mapRemove [("a", 1), ("b", 2)] "a" ∧
    sentRequestResolve ⟨false, "open", [("b", 2)], [], [1], [],
        [CallEvent.resolved "a" (some (Val.str "v"))]⟩ "a" 1 (some (Val.str "v"))
      = ⟨false, "open", [("b", 2)], [], [1], [],
        [CallEvent.resolved "a" (some (Val.str "v"))]⟩ := by
  have h := pending_call_settled_exactly_once
    ⟨false, "open", [("a", 1), ("b", 2)], [], [], [], []⟩
    "a" 1 (some (Val.str "v")) "E" (by decide)
  exact ⟨by decide, h.1.1,
    (h.2.2.2.2.2 ⟨false, "open", [("b", 2)], [], [1], [],
      [CallEvent.resolved "a" (some (Val.str "v"))]⟩ (by decide)).1⟩

/-- C4. `send` on a closed component throws a Closed error, and on a raw
channel whose `readyState` is not `"open"` throws a NotOpen error; in
both cases the state is returned unchanged (nothing sent on the raw
channel, no pending entry added) and no timeout is registered. -/
theorem send_precondition_errors (st : DCState) (d : Val) (id : String) (t : Nat) :
    (st.closed = true → send st d id t = ⟨some "Closed!", st, none⟩) ∧
    (st.closed = false → st.readyState ≠ "open" →
      send st d id t = ⟨some "Not opened!", st, none⟩) := by
  constructor
  · intro h
    simp [send, h]
  · intro h1 h2
    simp [send, h1, h2]

/-- C4 witness: a closed component and a connecting raw channel. -/
theorem send_precondition_errors_witness :
    send ⟨true, "open", [], [], [], [], []⟩ Val.null "1" 0
      = ⟨some "Closed!", ⟨true, "open", [], [], [], [], []⟩, none⟩ ∧
    send ⟨false, "connecting", [], [], [], [], []⟩ Val.null "1" 0
      = ⟨some "Not opened!", ⟨false, "connecting", [], [], [], [], []⟩, none⟩ :=
  ⟨(send_precondition_errors _ _ _ _).1 rfl,
   (send_precondition_errors _ _ _ _).2 rfl (by decide)⟩

/-- C7. `_handleResponse` with no pending entry for the response's id
returns the state unchanged (a diagnostic only: no error, every other
entry and timer untouched); with an entry present it cancels the entry's
timer and either rejects the call with the remote-reported error text
(response has an `err` field) or resolves it with the response's data. -/
theorem response_routing (st : DCState) (r : Envelope) :
    (mapGet st.pending r.id = none → handleResponse st r = st) ∧
    (∀ t, mapGet st.pending r.id = some t →
      (∀ e, r.err = some e →
        handleResponse st r =
          { st with pending := mapRemove st.pending r.id,
                    cancelled := st.cancelled ++ [t],
                    events := st.events ++ [CallEvent.rejected r.id e] }) ∧
      (r.err = none →
        handleResponse st r =
          { st with pending := mapRemove st.pending r.id,
                    cancelled := st.cancelled ++ [t],
                    events := st.events ++ [CallEvent.resolved r.id r.data] })) := by
  constructor
  · intro h
    simp [handleResponse, h]
  · intro t ht
    have hb := mapGet_some_has ht
    constructor
    · intro e he
      simp [handleResponse, ht, he, sentRequestReject, hb]
    · intro he
      simp [handleResponse, ht, he, sentRequestResolve, hb]

/-- C7 witness: an error response for a pending id rejects it with the
remote error text and cancels timer 1; a response for an unknown id
leaves the state unchanged. -/
theorem response_routing_witness :
    handleResponse ⟨false, "open", [("a", 1)], [], [], [], []⟩
        ⟨2, "a", none, some "boom"⟩
      = ⟨false, "open", [], [], [1], [], [CallEvent.rejected "a" "boom"]⟩ ∧
    handleResponse ⟨false, "open", [("a", 1)], [], [], [], []⟩
        ⟨1, "z", some Val.null, none⟩
      = ⟨false, "open", [("a", 1)], [], [], [], []⟩ := by
  constructor
  · exact (((response_routing ⟨false, "open", [("a", 1)], [], [], [], []⟩
      ⟨2, "a", none, some "boom"⟩).2 1 (by decide)).1 "boom" rfl).trans (by decide)
  · exact (response_routing ⟨false, "open", [("a", 1)], [], [], [], []⟩
      ⟨1, "z", some Val.null, none⟩).1 (by decide)

/-- The loop of `close()` (lines 51-53): folding `sentRequest.close()`
over the pending entries in insertion order empties the table, rejects
each call with a Closed error in order, and touches neither the sent
messages nor the lifecycle flags. Requires the map invariant that keys
are unique (a JS `Map` guarantees it). -/
lemma closeLoop_spec (l : List (String × Nat)) :
    ∀ st : DCState, st.pending = l → (l.map Prod.fst).Nodup →
    (l.foldl (fun s p => sentRequestClose s p.1 p.2) st).pending = [] ∧
    (l.foldl (fun s p => sentRequestClose s p.1 p.2) st).events
      = st.events ++ l.map (fun p => CallEvent.rejected p.1 "Closed!") ∧
    (l.foldl (fun s p => sentRequestClose s p.1 p.2) st).sent = st.sent ∧
    (l.foldl (fun s p => sentRequestClose s p.1 p.2) st).closed = st.closed ∧
    (l.foldl (fun s p => sentRequestClose s p.1 p.2) st).readyState
      = st.readyState := by
  induction l with
  | nil =>
    intro st h _
    simp [h]
  | cons p rest ih =>
    intro st hp hnd
    have hnotin : p.1 ∉ rest.map Prod.fst := (List.nodup_cons.mp hnd).1
    have hfresh : mapHas rest p.1 = false := by
      simp only [mapHas, List.any_eq_false]
      intro q hq
      simp only [beq_iff_eq]
      intro hqe
      exact hnotin (hqe ▸ List.mem_map_of_mem Prod.fst hq)
    have hhead : mapHas st.pending p.1 = true := by
      rw [hp]
      simp [mapHas]
    have hrm : mapRemove st.pending p.1 = rest := by
      rw [hp]
      simp only [mapRemove, List.filter_cons]
      rw [show (p.1 != p.1) = false by simp]
      simpa [mapRemove] using mapRemove_fresh hfresh
    have hstep : sentRequestClose st p.1 p.2 =
        { st with pending := rest,
                  cancelled := st.cancelled ++ [p.2],
                  events := st.events ++ [CallEvent.rejected p.1 "Closed!"] } := by
      simp [sentRequestClose, hhead, hrm]
    have hrec := ih (sentRequestClose st p.1 p.2) (by rw [hstep])
      (List.nodup_cons.mp hnd).2
    obtain ⟨e1, e2, e3, e4, e5⟩ := hrec
    simp only [List.foldl_cons] at *
    refine ⟨e1, ?_, ?_, ?_, ?_⟩
    · rw [e2, hstep]
      simp
    · rw [e3, hstep]
    · rw [e4, hstep]
    · rw [e5, hstep]

/-- C3. `close()` rejects every pending call with a Closed error (one
rejection per entry, in insertion order), leaves the pending table
empty, and closes the raw channel, marking the component closed; the
hypothesis is the map invariant that keys are unique. -/
theorem close_rejects_all_pending (st : DCState)
    (hnd : (st.pending.map Prod.fst).Nodup) :
    (close st).pending = [] ∧
    (close st).events
      = st.events ++ st.pending.map (fun p => CallEvent.rejected p.1 "Closed!") ∧
    (close st).closed = true ∧
    (close st).readyState = "closed" := by
  obtain ⟨e1, e2, e3, e4, e5⟩ := closeLoop_spec st.pending st rfl hnd
  refine ⟨?_, ?_, ?_, ?_⟩
  · simp [close, superClose]
  · simp only [close, superClose]
    exact e2
  · simp [close, superClose]
  · simp [close, superClose]

/-- C3 witness: closing a channel with two pending calls rejects both
with a Closed error and empties the table. -/
theorem close_rejects_all_pending_witness :
    (close ⟨false, "open", [("a", 1), ("b", 2)], [], [], [], []⟩).pending = [] ∧
    (close ⟨false, "open", [("a", 1), ("b", 2)], [], [], [], []⟩).events
      = [CallEvent.rejected "a" "Closed!", CallEvent.rejected "b" "Closed!"] ∧
    (close ⟨false, "open", [("a", 1), ("b", 2)], [], [], [], []⟩).closed = true := by
  have h := close_rejects_all_pending
    ⟨false, "open", [("a", 1), ("b", 2)], [], [], [], []⟩ (by decide)
  exact ⟨h.1, h.2.1.trans (by decide), h.2.2.1⟩

/-- C5. An inbound REQUEST whose handler throws synchronously before
calling either completion callback is answered automatically with an
ERROR_RESPONSE carrying the request's id and the handler's error text
(`err.toString()`); nothing else in the state changes and the receiving
side does not crash (the handling function is total and returns the
updated state). -/
theorem handler_throw_sends_error_response
    (st : DCState) (rid : String) (d : Val) (e : String) :
    handleMessage st (requestEnv rid d) (HandlerAction.throwErr e)
      = { st with sent := st.sent ++ [errorEnv rid e] } := rfl

/-- C6. An inbound REQUEST whose handler calls the success callback with
a serializable payload is answered with a SUCCESS_RESPONSE carrying the
request's id and that payload; when serializing the payload fails, the
failure is reported to the remote peer as an ERROR_RESPONSE (the message
of the `Error` thrown by the serialization, rendered by `toString`),
not dropped and not an unhandled fault. -/
theorem succeed_serializes_or_reports_encode_error
    (st : DCState) (rid : String) (d dresp : Val) :
    (dresp.serializable = true →
      handleMessage st (requestEnv rid d) (HandlerAction.succeed dresp)
        = { st with sent := st.sent ++ [successEnv rid dresp] }) ∧
    (dresp.serializable = false →
      handleMessage st (requestEnv rid d) (HandlerAction.succeed dresp)
        = { st with sent :=
              st.sent ++ [errorEnv rid "Error: Can not convert to JSON!"] }) := by
  have hred : handleMessage st (requestEnv rid d) (HandlerAction.succeed dresp)
      = handleRequest st rid (HandlerAction.succeed dresp) := rfl
  constructor
  · intro h
    rw [hred]
    simp [handleRequest, h]
  · intro h
    rw [hred]
    simp [handleRequest, h]

/-- C6 witness: a serializable response payload is answered with a
SUCCESS_RESPONSE; a BigInt response payload is answered with an
ERROR_RESPONSE reporting the encode failure. -/
theorem succeed_serializes_or_reports_encode_error_witness :
    handleMessage ⟨false, "open", [], [], [], [], []⟩ (requestEnv "9" Val.null)
        (HandlerAction.succeed (Val.str "ok"))
      = ⟨false, "open", [], [], [], [successEnv "9" (Val.str "ok")], []⟩ ∧
    handleMessage ⟨false, "open", [], [], [], [], []⟩ (requestEnv "9" Val.null)
        (HandlerAction.succeed (Val.bigint 5))
      = ⟨false, "open", [], [], [],
          [errorEnv "9" "Error: Can not convert to JSON!"], []⟩ := by
  constructor
  · exact ((succeed_serializes_or_reports_encode_error
      ⟨false, "open", [], [], [], [], []⟩ "9" Val.null (Val.str "ok")).1 rfl).trans
      (by decide)
  · exact ((succeed_serializes_or_reports_encode_error
      ⟨false, "open", [], [], [], [], []⟩ "9" Val.null (Val.bigint 5)).2 rfl).trans
      (by decide)

/-- The loop of `close()` never sends anything on the raw channel. -/
lemma closeLoop_sent (l : List (String × Nat)) :
    ∀ st : DCState,
      (l.foldl (fun s p => sentRequestClose s p.1 p.2) st).sent = st.sent := by
  induction l with
  | nil =>
    intro st
    rfl
  | cons p rest ih =>
    intro st
    simp only [List.foldl_cons]
    rw [ih]
    simp only [sentRequestClose]
    split <;> rfl

/-- `_handleResponse` never sends anything on the raw channel. -/
lemma handleResponse_sent (st : DCState) (r : Envelope) :
    (handleResponse st r).sent = st.sent := by
  rcases hg : mapGet st.pending r.id with _ | t
  · simp [handleResponse, hg]
  · rcases he : r.err with _ | e
    · simp only [handleResponse, hg, he, sentRequestResolve]
      split <;> rfl
    · simp only [handleResponse, hg, he, sentRequestReject]
      split <;> rfl

/-- C9. Every envelope the channel hands to the raw channel — from
`send` (whatever its input or the channel state), from `_handleMessage`
(whatever the inbound message and handler behavior), and from `close()`
(which sends nothing) — satisfies the §6 wire layout: a numeric
discriminant (the field is named `type` in the source, `kind` in the
spec) with value 0 (REQUEST, with `data`, no `err`), 1
(SUCCESS_RESPONSE, with `data`, no `err`) or 2 (ERROR_RESPONSE, string
`err`, no `data`). -/
theorem produced_envelopes_well_formed
    (st : DCState) (data : Val) (id : String) (t : Nat)
    (m : Envelope) (a : HandlerAction) :
    ((send st data id t).st.sent.drop st.sent.length).all wfEnvelope = true ∧
    ((handleMessage st m a).sent.drop st.sent.length).all wfEnvelope = true ∧
    ((close st).sent.drop st.sent.length).all wfEnvelope = true := by
  refine ⟨?_, ?_, ?_⟩
  · unfold send
    split
    · simp
    · split
      · simp
      · split
        · simp
        · simp [List.drop_left, wfEnvelope, requestEnv, PAYLOAD_TYPES_REQUEST]
  · rcases m with ⟨ty, mid, mdata, merr⟩
    rcases ty with _ | _ | _ | n
    · show ((handleRequest st mid a).sent.drop st.sent.length).all wfEnvelope = true
      rcases a with d | e | e | _
      · by_cases hd : d.serializable = true
        · simp [handleRequest, hd, List.drop_left, wfEnvelope, successEnv,
            PAYLOAD_TYPES_SUCCESS_RESPONSE]
        · simp [handleRequest, hd, List.drop_left, wfEnvelope, errorEnv,
            PAYLOAD_TYPES_ERROR_RESPONSE]
      · simp [handleRequest, List.drop_left, wfEnvelope, errorEnv,
          PAYLOAD_TYPES_ERROR_RESPONSE]
      · simp [handleRequest, List.drop_left, wfEnvelope, errorEnv,
          PAYLOAD_TYPES_ERROR_RESPONSE]
      · simp [handleRequest]
    · show ((handleResponse st ⟨1, mid, mdata, merr⟩).sent.drop st.sent.length).all
          wfEnvelope = true
      rw [handleResponse_sent]
      simp
    · show ((handleResponse st ⟨2, mid, mdata, merr⟩).sent.drop st.sent.length).all
          wfEnvelope = true
      rw [handleResponse_sent]
      simp
    · show (st.sent.drop st.sent.length).all wfEnvelope = true
      simp
  · have hcs : (close st).sent = st.sent := by
      simp only [close, superClose]
      exact closeLoop_sent st.pending st
    rw [hcs]
    simp

/-- C10. An inbound message whose decoded `type` discriminant is none of
0 (REQUEST), 1 (SUCCESS_RESPONSE) or 2 (ERROR_RESPONSE) falls out of the
`switch` in `_handleMessage`: the state is returned exactly unchanged —
no handler invoked, nothing sent, pending table untouched. -/
theorem unknown_type_ignored (st : DCState) (m : Envelope) (a : HandlerAction)
    (h0 : m.type ≠ 0) (h1 : m.type ≠ 1) (h2 : m.type ≠ 2) :
    handleMessage st m a = st := by
  rcases m with ⟨ty, mid, mdata, merr⟩
  rcases ty with _ | _ | _ | n
  · exact absurd rfl h0
  · exact absurd rfl h1
  · exact absurd rfl h2
  · rfl

/-- C10 witness: a message with discriminant 7 is silently ignored. -/
theorem unknown_type_ignored_witness :
    handleMessage ⟨false, "open", [("a", 1)], [], [], [], []⟩
        ⟨7, "a", some Val.null, none⟩ HandlerAction.noReply
      = ⟨false, "open", [("a", 1)], [], [], [], []⟩ :=
  unknown_type_ignored ⟨false, "open", [("a", 1)], [], [], [], []⟩
    ⟨7, "a", some Val.null, none⟩ HandlerAction.noReply
    (by decide) (by decide) (by decide)

/-- C8 counterexample. `Math.random()` can return 0.5, whose JS decimal
rendering is "0.5"; `String(0.5).slice(2, 6)` is "5", a one-character
id — not a string of exactly four decimal digit characters as the claim
states. -/
theorem correlation_id_not_always_four_digits :
    genId ['0', '.', '5'] = ['5'] ∧ (genId ['0', '.', '5']).length ≠ 4 := by
  decide

/-- C8 amended. The correlation id is `String(Math.random()).slice(2, 6)`:
at most four characters of the random number's decimal rendering; it is
a string of exactly four decimal digit characters whenever that
rendering is "0." followed by at least four decimal digits (the typical
case), but shorter renderings yield shorter ids. -/
theorem correlation_id_slice (render : List Char) :
    (genId render).length ≤ 4 ∧
    (∀ ds : List Char, render = '0' :: '.' :: ds → 4 ≤ ds.length →
      ds.all Char.isDigit = true →
      (genId render).length = 4 ∧ (genId render).all Char.isDigit = true) := by
  constructor
  · exact (render.drop 2).length_take_le 4
  · intro ds hrender hlen hdig
    subst hrender
    constructor
    · show (ds.take 4).length = 4
      rw [List.length_take]
      omega
    · show (ds.take 4).all Char.isDigit = true
      rw [List.all_eq_true] at hdig ⊢
      intro c hc
      exact hdig c (List.mem_of_mem_take hc)

/-- C8 amended witness: the rendering "0.12345" yields the id "1234",
four decimal digits. -/
theorem correlation_id_slice_witness :
    (genId ['0', '.', '1', '2', '3', '4', '5']).length = 4 ∧
    (genId ['0', '.', '1', '2', '3', '4', '5']).all Char.isDigit = true :=
  (correlation_id_slice ['0', '.', '1', '2', '3', '4', '5']).2
    ['1', '2', '3', '4', '5'] rfl (by decide) (by decide)
